import Mathlib

/-!
Verification of the calm-track polling-and-persistence pipeline
(`src/scraper.py`, `src/api.py`, `src/models/models.py`).

The Python source is shallowly embedded: each function becomes a Lean
definition over explicit state; exceptions are modelled as explicit
outcome values threaded into the functions that can observe them, and
the `try/except/finally` structure of the source is reproduced by case
analysis on those outcomes.
-/

namespace CalmTrack

/-- A target configuration record as read from `servers.json`:
`{id, name, ip, port}` (see `load_servers` and `init_servers`). -/
structure ServerConfig where
  id : String
  name : String
  ip : String
  port : Nat
  deriving Repr, DecidableEq

/-- The slice of a `mcstatus` status reply that `query_server` reads:
`status.players.online` and the optional `status.players.sample`.
Each sample entry carries `player.name`, a string that may be empty
(Python truthiness filters empty names out). -/
structure StatusPlayers where
  online : Nat
  sample : Option (List String)
  deriving Repr, DecidableEq

/-- The status object returned by `server.async_status()`. -/
structure Status where
  players : StatusPlayers
  deriving Repr, DecidableEq

/-- Outcome of one remote status query: either a status reply or an
exception (connection refused, timeout, protocol error, anything). -/
inductive ProbeOutcome where
  | ok (status : Status)
  | exn (msg : String)
  deriving Repr, DecidableEq

/-- The dictionary `query_server` returns:
`{server_id, player_count, players, success}`. -/
structure ProbeResult where
  server_id : String
  player_count : Nat
  players : List String
  success : Bool
  deriving Repr, DecidableEq

/-- Embedding of `query_server` (scraper.py lines 63-86).  The whole body
runs inside `try: ... except Exception:`; the network call's outcome is an
explicit argument.  On success the player list is the sample with falsy
(empty) names filtered out, and only when a sample is present and
non-empty (Python: `if hasattr(status.players, "sample") and
status.players.sample`). -/
def query_server (server_config : ServerConfig) (outcome : ProbeOutcome) :
    ProbeResult :=
  match outcome with
  | .ok status =>
      let players :=
        match status.players.sample with
        | some sample =>
            if sample.isEmpty then []
            else sample.filter (fun name => name ≠ "")
        | none => []
      { server_id := server_config.id
        player_count := status.players.online
        players := players
        success := true }
  | .exn _ =>
      { server_id := server_config.id
        player_count := 0
        players := []
        success := false }

/-- Embedding of `scrape_all_servers` (scraper.py lines 89-92):
`asyncio.gather` over `query_server` for each configured target.
`gather` waits for every task and returns their results in the order the
tasks were given; the per-target network outcome is supplied by the
`outcomes` environment. -/
def scrape_all_servers (servers_config : List ServerConfig)
    (outcomes : ServerConfig → ProbeOutcome) : List ProbeResult :=
  servers_config.map (fun server => query_server server (outcomes server))

/-- A `players` table row (models.py lines 41-45): surrogate id and a
username column carrying a UNIQUE constraint. -/
structure Player where
  id : Nat
  username : String
  deriving Repr, DecidableEq

/-- A `player_counts` table row (models.py lines 27-33): surrogate id,
target id, capture timestamp (modelled as an abstract tick) and the
observed count. -/
structure PlayerCount where
  id : Nat
  server_id : String
  timestamp : Nat
  player_count : Nat
  deriving Repr, DecidableEq

/-- One row of the `player_snapshot_association` join table
(models.py lines 8-13).  The table has no primary key or uniqueness
constraint, so the same pair may appear several times. -/
structure Assoc where
  player_count_id : Nat
  player_id : Nat
  deriving Repr, DecidableEq

/-- The slice of database state `save_results` touches, including rows
staged by `db.flush()` inside the open transaction (a flushed row is
visible to later queries of the same session, which is how the
lookup-or-create sees entities created earlier in the batch).
`nextPlayerCountId` and `nextPlayerId` model the autoincrement
sequences that `db.flush()` draws generated ids from. -/
structure DB where
  playerCounts : List PlayerCount
  players : List Player
  assocs : List Assoc
  nextPlayerCountId : Nat
  nextPlayerId : Nat
  deriving Repr, DecidableEq

/-- The empty database. -/
def DB.empty : DB := ⟨[], [], [], 0, 0⟩

/-- The inner loop of `save_results` (scraper.py lines 113-122): for each
name in the result's player list, look the entity up by username
(`db.query(Player).filter(Player.username == player_name).first()`),
create-and-flush it when absent, then append an association between the
snapshot and the entity. -/
def save_player_step (player_count_id : Nat) (db : DB)
    (player_name : String) : DB :=
  match db.players.find? (fun p => p.username == player_name) with
  | some player =>
      { db with
        assocs := db.assocs ++ [⟨player_count_id, player.id⟩] }
  | none =>
      let player : Player := ⟨db.nextPlayerId, player_name⟩
      { db with
        players := db.players ++ [player]
        nextPlayerId := db.nextPlayerId + 1
        assocs := db.assocs ++ [⟨player_count_id, player.id⟩] }

/-- The player loop of `save_results`: fold `save_player_step` over the
result's player-name list. -/
def save_players (db : DB) (player_count_id : Nat) (names : List String) :
    DB :=
  names.foldl (save_player_step player_count_id) db

/-- One iteration of the outer loop of `save_results` (scraper.py lines
99-122): skip unsuccessful results (`if not result["success"]:
continue`); otherwise create-and-flush the `PlayerCount` row with the
shared timestamp, then process its player list. -/
def save_result (timestamp : Nat) (db : DB) (result : ProbeResult) : DB :=
  if !result.success then db
  else
    let player_count : PlayerCount :=
      ⟨db.nextPlayerCountId, result.server_id, timestamp,
        result.player_count⟩
    let db1 : DB :=
      { db with
        playerCounts := db.playerCounts ++ [player_count]
        nextPlayerCountId := db.nextPlayerCountId + 1 }
    save_players db1 player_count.id result.players

/-- Embedding of `save_results` (scraper.py lines 95-124).  The
timestamp is taken once, before the loop (`timestamp =
datetime.utcnow()` on line 97), and is therefore a single argument
shared by every iteration. -/
def save_results (db : DB) (timestamp : Nat) (results : List ProbeResult) :
    DB :=
  results.foldl (save_result timestamp) db

/-- Usernames of the player rows of a database state. -/
def DB.usernames (db : DB) : List String := db.players.map Player.username

/-- The fcntl flag constants the scraper uses (their Linux values). -/
def LOCK_EX : Nat := 2

/-- Non-blocking flag: `fcntl.LOCK_NB`. -/
def LOCK_NB : Nat := 4

/-- Unlock flag: `fcntl.LOCK_UN`. -/
def LOCK_UN : Nat := 8

/-- The flag word `acquire_lock` passes to `fcntl.lockf`
(scraper.py line 25): `fcntl.LOCK_EX | fcntl.LOCK_NB`. -/
def acquireFlags : Nat := LOCK_EX ||| LOCK_NB

/-- Outcome of the single lock attempt inside `acquire_lock`: either the
non-blocking `lockf` call succeeds, or it raises `IOError` at once
because another process holds the lock (`LOCK_NB` makes the kernel
return `EAGAIN` instead of sleeping). -/
inductive AcquireOutcome where
  | acquired
  | alreadyHeld
  deriving Repr, DecidableEq

/-- What `acquire_lock` did: whether it returned holding the lock,
whether it terminated the process, with which exit status, and which
message it printed. -/
structure AcquireResult where
  gotLock : Bool
  exited : Bool
  exitCode : Nat
  message : Option String
  deriving Repr, DecidableEq

/-- Embedding of `acquire_lock` (scraper.py lines 21-29): on `IOError`
from the non-blocking `lockf` it prints a message and calls
`sys.exit(1)`; otherwise it returns the open lock-file handle. -/
def acquire_lock : AcquireOutcome → AcquireResult
  | .acquired => ⟨true, false, 0, none⟩
  | .alreadyHeld =>
      ⟨false, true, 1, some "Another instance is already running."⟩

/-- Outcome of one runtime step that can raise an exception. -/
inductive StepOutcome where
  | ok
  | fails (msg : String)
  deriving Repr, DecidableEq

/-- What the three operations inside `release_lock` do at runtime:
`fcntl.lockf(lock_file, fcntl.LOCK_UN)` (line 34), `lock_file.close()`
(line 35) and `os.remove(LOCK_FILE)` (line 37). -/
structure ReleaseOutcomes where
  unlockStep : StepOutcome
  closeStep : StepOutcome
  removeStep : StepOutcome
  deriving Repr, DecidableEq

/-- Embedding of `release_lock` (scraper.py lines 32-39); the value is
the exception it propagates to its caller, if any.  Only the
`os.remove` call on line 37 sits inside `try: ... except: pass`; the
unlock on line 34 and the close on line 35 are unguarded. -/
def release_lock (o : ReleaseOutcomes) : Option String :=
  match o.unlockStep with
  | .fails m => some m
  | .ok =>
      match o.closeStep with
      | .fails m => some m
      | .ok => none

/-- Runtime outcomes of each step of one cycle of `main` (scraper.py
lines 127-155): `Base.metadata.create_all` (line 133), `load_servers()`
(line 136), `SessionLocal()` (line 139), `init_servers` (line 141),
`scrape_all_servers` (line 144) and `save_results` (line 147). -/
structure MainOutcomes where
  createAll : StepOutcome
  loadConfig : StepOutcome
  openSession : StepOutcome
  initStep : StepOutcome
  scrapeStep : StepOutcome
  saveStep : StepOutcome
  deriving Repr, DecidableEq

/-- Observable events of one `main` cycle, in execution order. -/
inductive Event where
  | lockAcquired
  | sessionOpened
  | sessionClosed
  | lockReleased
  deriving Repr, DecidableEq

/-- Embedding of `main` (scraper.py lines 127-155), entered after
`acquire_lock` returned holding the lock.  The outer `try/finally`
always runs `release_lock`; the inner `try/finally` always runs
`db.close()` once `SessionLocal()` has returned.  The result is the
trace of events plus the exception `main` propagates, if any. -/
def mainRun (o : MainOutcomes) : List Event × Option String :=
  match o.createAll with
  | .fails m => ([.lockAcquired, .lockReleased], some m)
  | .ok =>
      match o.loadConfig with
      | .fails m => ([.lockAcquired, .lockReleased], some m)
      | .ok =>
          match o.openSession with
          | .fails m => ([.lockAcquired, .lockReleased], some m)
          | .ok =>
              match o.initStep with
              | .fails m =>
                  ([.lockAcquired, .sessionOpened, .sessionClosed,
                    .lockReleased], some m)
              | .ok =>
                  match o.scrapeStep with
                  | .fails m =>
                      ([.lockAcquired, .sessionOpened, .sessionClosed,
                        .lockReleased], some m)
                  | .ok =>
                      match o.saveStep with
                      | .fails m =>
                          ([.lockAcquired, .sessionOpened, .sessionClosed,
                            .lockReleased], some m)
                      | .ok =>
                          ([.lockAcquired, .sessionOpened, .sessionClosed,
                            .lockReleased], none)

/-- A `servers` table row (models.py lines 16-24). -/
structure Server where
  id : String
  name : String
  ip : String
  port : Nat
  deriving Repr, DecidableEq

/-- One step of the SQL MIN aggregate: fold the next non-NULL value into
the accumulator. -/
def sqlMinStep (acc : Option Nat) (x : Nat) : Option Nat :=
  match acc with
  | none => some x
  | some m => some (Nat.min m x)

/-- SQL `MIN` over a column: NULL on the empty set. -/
def sqlMin (xs : List Nat) : Option Nat := xs.foldl sqlMinStep none

/-- One step of the SQL MAX aggregate. -/
def sqlMaxStep (acc : Option Nat) (x : Nat) : Option Nat :=
  match acc with
  | none => some x
  | some m => some (Nat.max m x)

/-- SQL `MAX` over a column: NULL on the empty set. -/
def sqlMax (xs : List Nat) : Option Nat := xs.foldl sqlMaxStep none

/-- SQL `SUM` over a column. -/
def sqlSum (xs : List Nat) : Nat := xs.foldl (fun acc x => acc + x) 0

/-- SQL `COUNT` over a column. -/
def sqlCount (xs : List Nat) : Nat := xs.foldl (fun acc _ => acc + 1) 0

/-- SQL `AVG` over a column: NULL on the empty set, otherwise the exact
rational sum/count. -/
def sqlAvg (xs : List Nat) : Option ℚ :=
  if xs.isEmpty then none
  else some ((sqlSum xs : ℚ) / (sqlCount xs : ℚ))

/-- Round half to even, the tie-breaking rule of Python's `round`. -/
def roundHalfEven (q : ℚ) : ℤ :=
  if Int.fract q < 1 / 2 then ⌊q⌋
  else if 1 / 2 < Int.fract q then ⌊q⌋ + 1
  else if ⌊q⌋ % 2 = 0 then ⌊q⌋ else ⌊q⌋ + 1

/-- Python's `round(q, 2)`: round to two decimal places. -/
def pyRound2 (q : ℚ) : ℚ := (roundHalfEven (q * 100) : ℚ) / 100

/-- Seconds in one day, for the `timedelta(days=period)` window
arithmetic on abstract second ticks. -/
def secondsPerDay : Nat := 86400

/-- The counts the statistics query aggregates over: player counts of
the rows of the given server whose timestamp lies in
`[now - period days, now]` (the filter of api.py lines 260-264). -/
def statsWindow (rows : List PlayerCount) (server_id : String)
    (period now : Nat) : List Nat :=
  (rows.filter (fun pc =>
    pc.server_id == server_id &&
      decide (now - period * secondsPerDay ≤ pc.timestamp) &&
      decide (pc.timestamp ≤ now))).map PlayerCount.player_count

/-- The JSON body of `/stats/{server_id}` (api.py lines 266-274). -/
structure StatsResponse where
  server_id : String
  server_name : String
  period_days : Nat
  min_players : Nat
  max_players : Nat
  avg_players : ℚ
  total_snapshots : Nat
  deriving Repr, DecidableEq

/-- Embedding of `get_server_stats` (api.py lines 237-274): 404 when the
server id is unknown; otherwise aggregate MIN/MAX/AVG/COUNT over the
window's player counts, SQL NULL (empty window) coalesced to 0 by the
`or 0` defaults, and the average passed through Python's
`round(float(_), 2)`. -/
def get_server_stats (servers : List Server) (rows : List PlayerCount)
    (server_id : String) (period : Nat) (now : Nat) :
    Except Nat StatsResponse :=
  match servers.find? (fun s => s.id == server_id) with
  | none => .error 404
  | some server =>
      let counts := statsWindow rows server_id period now
      .ok
        { server_id := server_id
          server_name := server.name
          period_days := period
          min_players := (sqlMin counts).getD 0
          max_players := (sqlMax counts).getD 0
          avg_players := pyRound2 ((sqlAvg counts).getD 0)
          total_snapshots := sqlCount counts }

end CalmTrack

open CalmTrack

/-- C1: for every target configuration and every exception raised during
the status query, `query_server` does not propagate the exception; it
returns a result with that target's id, observed count 0, an empty
entity-name list, and `success = false`. -/
theorem query_server_swallows_failures (cfg : ServerConfig) (msg : String) :
    query_server cfg (.exn msg) =
      { server_id := cfg.id, player_count := 0, players := [],
        success := false } := by
  rfl

/-- C2: for every list of N configured targets, `scrape_all_servers`
returns exactly N results whose target ids agree with the input target
ids (here even position by position, which implies the multiset/set
equality the spec asks for); and when every probe succeeds, every
returned result has `success = true`. -/
theorem scrape_all_servers_complete (servers_config : List ServerConfig)
    (outcomes : ServerConfig → ProbeOutcome) :
    (scrape_all_servers servers_config outcomes).length =
        servers_config.length ∧
    (scrape_all_servers servers_config outcomes).map ProbeResult.server_id =
        servers_config.map ServerConfig.id ∧
    ((∀ cfg ∈ servers_config, ∃ s, outcomes cfg = .ok s) →
      ∀ r ∈ scrape_all_servers servers_config outcomes, r.success = true) := by
  refine ⟨by simp [scrape_all_servers], ?_, ?_⟩
  · simp only [scrape_all_servers, List.map_map]
    refine List.map_congr_left (fun cfg _ => ?_)
    cases h : outcomes cfg with
    | ok s => simp [query_server, h]
    | exn m => simp [query_server, h]
  · intro hall r hr
    simp only [scrape_all_servers, List.mem_map] at hr
    obtain ⟨cfg, hcfg, rfl⟩ := hr
    obtain ⟨s, hs⟩ := hall cfg hcfg
    simp [query_server, hs]

/-- Witness for C2 at a concrete two-target list where both probes
succeed. -/
theorem scrape_all_servers_complete_witness :
    ∀ r ∈ scrape_all_servers
        [⟨"a", "A", "h1", 1⟩, ⟨"b", "B", "h2", 2⟩]
        (fun _ => .ok ⟨⟨3, some ["X", "Y"]⟩⟩),
      r.success = true :=
  (scrape_all_servers_complete
      [⟨"a", "A", "h1", 1⟩, ⟨"b", "B", "h2", 2⟩]
      (fun _ => .ok ⟨⟨3, some ["X", "Y"]⟩⟩)).2.2
    (fun _ _ => ⟨⟨⟨3, some ["X", "Y"]⟩⟩, rfl⟩)

/-- `save_player_step` never touches the snapshot table. -/
theorem save_player_step_playerCounts (i : Nat) (db : DB) (n : String) :
    (save_player_step i db n).playerCounts = db.playerCounts := by
  unfold save_player_step
  cases db.players.find? (fun p => p.username == n) <;> rfl

/-- `save_players` never touches the snapshot table. -/
theorem save_players_playerCounts (names : List String) :
    ∀ db i, (save_players db i names).playerCounts = db.playerCounts := by
  induction names with
  | nil => intro db i; rfl
  | cons n ns ih =>
      intro db i
      show (save_players (save_player_step i db n) i ns).playerCounts = _
      rw [ih, save_player_step_playerCounts]

/-- A name absent from the player table stays absent for `find?`. -/
theorem find_none_not_mem {db : DB} {n : String}
    (h : db.players.find? (fun p => p.username == n) = none) :
    n ∉ db.usernames := by
  intro hmem
  simp only [DB.usernames, List.mem_map] at hmem
  obtain ⟨p, hp, hpn⟩ := hmem
  have hnp := List.find?_eq_none.mp h p hp
  simp [hpn] at hnp

/-- `save_player_step` preserves distinctness of usernames: it creates a
row only after `find?` reported the username absent. -/
theorem save_player_step_nodup (i : Nat) (db : DB) (n : String)
    (h : db.usernames.Nodup) :
    (save_player_step i db n).usernames.Nodup := by
  unfold save_player_step
  cases hf : db.players.find? (fun p => p.username == n) with
  | some p => simpa [DB.usernames] using h
  | none =>
      have hn : n ∉ db.usernames := find_none_not_mem hf
      simp only [DB.usernames, List.map_append, List.map_cons, List.map_nil]
      rw [List.nodup_append]
      refine ⟨h, List.nodup_singleton n, ?_⟩
      intro a ha hae
      rw [List.mem_singleton] at hae
      exact hn (hae ▸ ha)

/-- `save_players` preserves distinctness of usernames. -/
theorem save_players_nodup (names : List String) :
    ∀ db i, db.usernames.Nodup → (save_players db i names).usernames.Nodup := by
  induction names with
  | nil => intro db i h; exact h
  | cons n ns ih =>
      intro db i h
      exact ih (save_player_step i db n) i (save_player_step_nodup i db n h)

/-- `save_result` preserves distinctness of usernames. -/
theorem save_result_nodup (ts : Nat) (db : DB) (r : ProbeResult)
    (h : db.usernames.Nodup) : (save_result ts db r).usernames.Nodup := by
  unfold save_result
  cases hs : r.success with
  | false => simpa using h
  | true =>
      simp only [hs, Bool.not_true, Bool.false_eq_true, if_false]
      exact save_players_nodup r.players _ _ (by simpa [DB.usernames] using h)

/-- `save_results` preserves distinctness of usernames. -/
theorem save_results_nodup (results : List ProbeResult) :
    ∀ db ts, db.usernames.Nodup →
      (save_results db ts results).usernames.Nodup := by
  induction results with
  | nil => intro db ts h; exact h
  | cons r rs ih =>
      intro db ts h
      exact ih (save_result ts db r) ts (save_result_nodup ts db r h)

/-- Each `save_player_step` appends exactly one association row. -/
theorem save_players_assocs_length (names : List String) :
    ∀ db i, (save_players db i names).assocs.length =
      db.assocs.length + names.length := by
  induction names with
  | nil => intro db i; rfl
  | cons n ns ih =>
      intro db i
      show (save_players (save_player_step i db n) i ns).assocs.length = _
      rw [ih]
      have h1 : (save_player_step i db n).assocs.length =
          db.assocs.length + 1 := by
        unfold save_player_step
        cases db.players.find? (fun p => p.username == n) <;> simp
      rw [h1, List.length_cons]
      omega

/-- C3: `save_results` processes only results with `success = true`: a
result with `success = false` contributes nothing at all to the database
state (no snapshot row, no entity row, no association), i.e. removing it
from the batch leaves the outcome unchanged. -/
theorem save_results_skips_failures (db : DB) (ts : Nat)
    (rs1 rs2 : List ProbeResult) (r : ProbeResult)
    (h : r.success = false) :
    save_results db ts (rs1 ++ r :: rs2) = save_results db ts (rs1 ++ rs2) := by
  unfold save_results
  rw [List.foldl_append, List.foldl_append, List.foldl_cons]
  congr 1
  unfold save_result
  simp [h]

/-- Witness for C3: a failed probe for target b adds nothing. -/
theorem save_results_skips_failures_witness :
    save_results DB.empty 0
        ([⟨"a", 3, ["X"], true⟩] ++ (⟨"b", 0, [], false⟩ : ProbeResult) ::
          []) =
      save_results DB.empty 0 ([⟨"a", 3, ["X"], true⟩] ++ []) :=
  save_results_skips_failures DB.empty 0 [⟨"a", 3, ["X"], true⟩] []
    ⟨"b", 0, [], false⟩ rfl

/-- C4: the lookup-or-create of `save_results` never creates two player
rows with the same username (distinctness of usernames, the natural-key
UNIQUE constraint, is preserved); and in the concrete batch where the
name X appears in two different successful results, exactly one player
row for X exists afterwards and both snapshots are associated with it. -/
theorem save_results_unique_usernames :
    (∀ db ts results, db.usernames.Nodup →
        (save_results db ts results).usernames.Nodup) ∧
    save_results DB.empty 5
        [⟨"a", 1, ["X"], true⟩, ⟨"b", 2, ["X"], true⟩] =
      ⟨[⟨0, "a", 5, 1⟩, ⟨1, "b", 5, 2⟩], [⟨0, "X"⟩],
        [⟨0, 0⟩, ⟨1, 0⟩], 2, 1⟩ :=
  ⟨fun db ts results h => save_results_nodup results db ts h, rfl⟩

/-- Witness for C4: persisting a batch that repeats the name X leaves
the username column duplicate-free. -/
theorem save_results_unique_usernames_witness :
    (save_results DB.empty 3
        [⟨"a", 2, ["X", "Y"], true⟩, ⟨"b", 1, ["X"], true⟩]).usernames.Nodup :=
  save_results_unique_usernames.1 DB.empty 3
    [⟨"a", 2, ["X", "Y"], true⟩, ⟨"b", 1, ["X"], true⟩] (by decide)

/-- C5: every snapshot row present after `save_results` either predates
the call or carries the single shared timestamp taken once at the start
of persistence, however many results the batch contains. -/
theorem save_results_single_timestamp (db : DB) (ts : Nat)
    (results : List ProbeResult) :
    ∀ pc ∈ (save_results db ts results).playerCounts,
      pc ∈ db.playerCounts ∨ pc.timestamp = ts := by
  induction results generalizing db with
  | nil => intro pc hpc; exact Or.inl hpc
  | cons r rs ih =>
      intro pc hpc
      rcases ih (save_result ts db r) pc hpc with h | h
      · cases hs : r.success with
        | false =>
            rw [save_result, hs] at h
            exact Or.inl (by simpa using h)
        | true =>
            have h2 : pc ∈ db.playerCounts ++
                [⟨db.nextPlayerCountId, r.server_id, ts, r.player_count⟩] := by
              simpa [save_result, hs, save_players_playerCounts] using h
            rcases List.mem_append.mp h2 with h3 | h3
            · exact Or.inl h3
            · right
              rw [List.mem_singleton] at h3
              rw [h3]
      · exact Or.inr h

/-- Witness for C5: the one snapshot row created at tick 7 carries
timestamp 7. -/
theorem save_results_single_timestamp_witness :
    (⟨0, "a", 7, 3⟩ : PlayerCount) ∈ DB.empty.playerCounts ∨
      (⟨0, "a", 7, 3⟩ : PlayerCount).timestamp = 7 :=
  save_results_single_timestamp DB.empty 7 [⟨"a", 3, ["X"], true⟩]
    ⟨0, "a", 7, 3⟩ (by decide)

/-- C10: for a successful result, `save_result` appends one association
row per occurrence in the player-name list (no deduplication), while the
lookup-or-create still produces at most one player row per name: in the
concrete run where X appears twice in one result, one player row and two
identical snapshot-player association rows result. -/
theorem save_result_duplicate_names :
    (∀ db ts r, r.success = true →
        (save_result ts db r).assocs.length =
          db.assocs.length + r.players.length) ∧
    save_result 3 DB.empty ⟨"a", 2, ["X", "X"], true⟩ =
      ⟨[⟨0, "a", 3, 2⟩], [⟨0, "X"⟩], [⟨0, 0⟩, ⟨0, 0⟩], 1, 1⟩ := by
  constructor
  · intro db ts r hs
    show (save_result ts db r).assocs.length = _
    rw [save_result, hs]
    simp only [Bool.not_true, Bool.false_eq_true, if_false]
    rw [show (save_players
        { db with
          playerCounts := db.playerCounts ++
            [⟨db.nextPlayerCountId, r.server_id, ts, r.player_count⟩]
          nextPlayerCountId := db.nextPlayerCountId + 1 }
        db.nextPlayerCountId r.players).assocs.length =
        db.assocs.length + r.players.length from
      save_players_assocs_length r.players _ _]
  · rfl

/-- Witness for C10: two occurrences of X yield two association rows. -/
theorem save_result_duplicate_names_witness :
    (save_result 0 DB.empty ⟨"s", 1, ["X", "X"], true⟩).assocs.length =
      DB.empty.assocs.length + 2 :=
  save_result_duplicate_names.1 DB.empty 0 ⟨"s", 1, ["X", "X"], true⟩ rfl

/-- C6: in every run of `main` that starts after the lock was acquired,
`release_lock` runs last on every exit path; whenever a session was
opened it is closed strictly before the lock is released; and the cycle
finishes without a propagated error only when every step (including the
Collector and Persister steps) succeeded, i.e. their errors are never
swallowed. -/
theorem main_cleanup (o : MainOutcomes) :
    (mainRun o).1.getLast? = some Event.lockReleased ∧
    (Event.sessionOpened ∈ (mainRun o).1 →
      Event.sessionClosed ∈ (mainRun o).1.dropLast) ∧
    ((mainRun o).2 = none →
      o.scrapeStep = .ok ∧ o.saveStep = .ok) ∧
    (∀ m, o.createAll = .ok → o.loadConfig = .ok → o.openSession = .ok →
      o.initStep = .ok → o.scrapeStep = .ok → o.saveStep = .fails m →
      (mainRun o).2 = some m) := by
  obtain ⟨c, l, s, i, sc, sv⟩ := o
  cases c <;> cases l <;> cases s <;> cases i <;> cases sc <;> cases sv <;>
    simp [mainRun]

/-- Witness for C6: a run whose persistence step fails still closes the
session before the lock release, and propagates that very error. -/
theorem main_cleanup_witness :
    Event.sessionClosed ∈
        (mainRun ⟨.ok, .ok, .ok, .ok, .ok, .fails "db error"⟩).1.dropLast ∧
    (mainRun ⟨.ok, .ok, .ok, .ok, .ok, .fails "db error"⟩).2 =
        some "db error" :=
  ⟨(main_cleanup ⟨.ok, .ok, .ok, .ok, .ok, .fails "db error"⟩).2.1
      (by decide),
    (main_cleanup ⟨.ok, .ok, .ok, .ok, .ok, .fails "db error"⟩).2.2.2
      "db error" rfl rfl rfl rfl rfl rfl⟩

/-- C7 counterexample: a failure of the unlock call on line 34 is not
swallowed — `release_lock` propagates it, refuting "release_lock never
raises" (the repository's own test
`test_release_lock_handles_unlock_exception` expects exactly this
propagation). -/
theorem release_lock_counterexample :
    release_lock ⟨.fails "Unlock failed", .ok, .ok⟩ =
      some "Unlock failed" :=
  rfl

/-- C7 amended: only a failure while removing the backing lock file is
swallowed (the bare `except: pass` around `os.remove`); failures during
unlocking or closing are unguarded and propagate to the caller. -/
theorem release_lock_swallows_remove_only (o : ReleaseOutcomes) :
    (o.unlockStep = .ok → o.closeStep = .ok → release_lock o = none) ∧
    (∀ m, o.unlockStep = .fails m → release_lock o = some m) ∧
    (∀ m, o.unlockStep = .ok → o.closeStep = .fails m →
      release_lock o = some m) := by
  obtain ⟨u, c, r⟩ := o
  cases u <;> cases c <;> simp [release_lock]

/-- Witness for the amended C7: when unlocking and closing succeed, a
removal failure (file already gone) surfaces nowhere. -/
theorem release_lock_swallows_remove_only_witness :
    release_lock ⟨.ok, .ok, .fails "No such file"⟩ = none :=
  (release_lock_swallows_remove_only ⟨.ok, .ok, .fails "No such file"⟩).1
    rfl rfl

/-- C8: when the lock is already held by another process, `acquire_lock`
terminates the process with exit status 1 and a human-readable message,
and the flag word it passed to `lockf` has the non-blocking bit set, so
the attempt fails fast instead of waiting or queueing. -/
theorem acquire_lock_fails_fast :
    acquire_lock .alreadyHeld =
      ⟨false, true, 1, some "Another instance is already running."⟩ ∧
    acquireFlags &&& LOCK_NB ≠ 0 :=
  ⟨rfl, by decide⟩

/-- Folding `Nat.min` computes a lower bound that is the seed or a list
member. -/
theorem foldl_min_spec (xs : List Nat) :
    ∀ a, (xs.foldl Nat.min a = a ∨ xs.foldl Nat.min a ∈ xs) ∧
      xs.foldl Nat.min a ≤ a ∧ ∀ x ∈ xs, xs.foldl Nat.min a ≤ x := by
  induction xs with
  | nil =>
      intro a
      exact ⟨Or.inl rfl, Nat.le_refl a, by intro x hx; cases hx⟩
  | cons x xs ih =>
      intro a
      obtain ⟨hmem, hle, hall⟩ := ih (Nat.min a x)
      rw [List.foldl_cons]
      refine ⟨?_, Nat.le_trans hle (Nat.min_le_left a x), ?_⟩
      · rcases hmem with h | h
        · rcases Nat.le_total a x with hax | hxa
          · refine Or.inl ?_
            rw [h]
            change min a x = a
            exact min_eq_left hax
          · refine Or.inr ?_
            rw [h, show Nat.min a x = x from min_eq_right hxa]
            exact List.mem_cons_self x xs
        · exact Or.inr (List.mem_cons_of_mem x h)
      · intro y hy
        rcases List.mem_cons.mp hy with rfl | hy2
        · exact Nat.le_trans hle (Nat.min_le_right a y)
        · exact hall y hy2

/-- Folding `Nat.max` computes an upper bound that is the seed or a list
member. -/
theorem foldl_max_spec (xs : List Nat) :
    ∀ a, (xs.foldl Nat.max a = a ∨ xs.foldl Nat.max a ∈ xs) ∧
      a ≤ xs.foldl Nat.max a ∧ ∀ x ∈ xs, x ≤ xs.foldl Nat.max a := by
  induction xs with
  | nil =>
      intro a
      exact ⟨Or.inl rfl, Nat.le_refl a, by intro x hx; cases hx⟩
  | cons x xs ih =>
      intro a
      obtain ⟨hmem, hle, hall⟩ := ih (Nat.max a x)
      rw [List.foldl_cons]
      refine ⟨?_, Nat.le_trans (Nat.le_max_left a x) hle, ?_⟩
      · rcases hmem with h | h
        · rcases Nat.le_total a x with hax | hxa
          · refine Or.inr ?_
            rw [h, show Nat.max a x = x from max_eq_right hax]
            exact List.mem_cons_self x xs
          · refine Or.inl ?_
            rw [h]
            change max a x = a
            exact max_eq_left hxa
        · exact Or.inr (List.mem_cons_of_mem x h)
      · intro y hy
        rcases List.mem_cons.mp hy with rfl | hy2
        · exact Nat.le_trans (Nat.le_max_right a y) hle
        · exact hall y hy2

/-- Seeding the MIN fold with a value continues as a plain `Nat.min`
fold. -/
theorem sqlMin_go (xs : List Nat) :
    ∀ a, xs.foldl sqlMinStep (some a) = some (xs.foldl Nat.min a) := by
  induction xs with
  | nil => intro a; rfl
  | cons x xs ih =>
      intro a
      show xs.foldl sqlMinStep (some (Nat.min a x)) = _
      rw [ih, List.foldl_cons]

/-- On a non-empty column, SQL MIN returns a member below all members. -/
theorem sqlMin_spec (xs : List Nat) (h : xs ≠ []) :
    ∃ m, sqlMin xs = some m ∧ m ∈ xs ∧ ∀ x ∈ xs, m ≤ x := by
  match xs, h with
  | x :: xs, _ =>
      refine ⟨xs.foldl Nat.min x, ?_, ?_, ?_⟩
      · show xs.foldl sqlMinStep (sqlMinStep none x) = _
        rw [show sqlMinStep none x = some x from rfl, sqlMin_go]
      · obtain ⟨hmem, _, _⟩ := foldl_min_spec xs x
        rcases hmem with h1 | h1
        · rw [h1]; exact List.mem_cons_self x xs
        · exact List.mem_cons_of_mem x h1
      · obtain ⟨_, hle, hall⟩ := foldl_min_spec xs x
        intro y hy
        rcases List.mem_cons.mp hy with rfl | hy2
        · exact hle
        · exact hall y hy2

/-- Seeding the MAX fold with a value continues as a plain `Nat.max`
fold. -/
theorem sqlMax_go (xs : List Nat) :
    ∀ a, xs.foldl sqlMaxStep (some a) = some (xs.foldl Nat.max a) := by
  induction xs with
  | nil => intro a; rfl
  | cons x xs ih =>
      intro a
      show xs.foldl sqlMaxStep (some (Nat.max a x)) = _
      rw [ih, List.foldl_cons]

/-- On a non-empty column, SQL MAX returns a member above all members. -/
theorem sqlMax_spec (xs : List Nat) (h : xs ≠ []) :
    ∃ m, sqlMax xs = some m ∧ m ∈ xs ∧ ∀ x ∈ xs, x ≤ m := by
  match xs, h with
  | x :: xs, _ =>
      refine ⟨xs.foldl Nat.max x, ?_, ?_, ?_⟩
      · show xs.foldl sqlMaxStep (sqlMaxStep none x) = _
        rw [show sqlMaxStep none x = some x from rfl, sqlMax_go]
      · obtain ⟨hmem, _, _⟩ := foldl_max_spec xs x
        rcases hmem with h1 | h1
        · rw [h1]; exact List.mem_cons_self x xs
        · exact List.mem_cons_of_mem x h1
      · obtain ⟨_, hle, hall⟩ := foldl_max_spec xs x
        intro y hy
        rcases List.mem_cons.mp hy with rfl | hy2
        · exact hle
        · exact hall y hy2

/-- The SUM fold with a seed adds the list sum to the seed. -/
theorem foldl_add_eq (xs : List Nat) :
    ∀ a, xs.foldl (fun acc x => acc + x) a = a + xs.sum := by
  induction xs with
  | nil => intro a; simp
  | cons x xs ih =>
      intro a
      rw [List.foldl_cons, ih, List.sum_cons]
      omega

/-- SQL SUM agrees with the list sum. -/
theorem sqlSum_eq (xs : List Nat) : sqlSum xs = xs.sum := by
  unfold sqlSum
  rw [foldl_add_eq]
  omega

/-- The COUNT fold with a seed adds the list length to the seed. -/
theorem foldl_count_eq (xs : List Nat) :
    ∀ a, xs.foldl (fun acc _ => acc + 1) a = a + xs.length := by
  induction xs with
  | nil => intro a; simp
  | cons x xs ih =>
      intro a
      rw [List.foldl_cons, ih, List.length_cons]
      omega

/-- SQL COUNT agrees with the list length. -/
theorem sqlCount_eq (xs : List Nat) : sqlCount xs = xs.length := by
  unfold sqlCount
  rw [foldl_count_eq]
  omega

/-- On a non-empty column, SQL AVG (after the endpoint's NULL-coalesce)
is the exact arithmetic mean sum/length. -/
theorem sqlAvg_spec (xs : List Nat) (h : xs ≠ []) :
    (sqlAvg xs).getD 0 = (xs.sum : ℚ) / (xs.length : ℚ) := by
  unfold sqlAvg
  rw [if_neg (by simpa using h)]
  rw [Option.getD_some, sqlSum_eq, sqlCount_eq]

/-- C9: for every server with persisted snapshots in the queried window,
`get_server_stats` returns the minimum, maximum, arithmetic average
(rounded to two decimals) and row count of the observed counts in that
window; in particular, for five snapshots with counts [0,2,4,6,8] it
returns min 0, max 8, avg 4.0 and count 5. -/
theorem get_server_stats_correct :
    (∀ servers rows sid period now server,
      servers.find? (fun s => s.id == sid) = some server →
      statsWindow rows sid period now ≠ [] →
      ∃ resp, get_server_stats servers rows sid period now = .ok resp ∧
        resp.min_players ∈ statsWindow rows sid period now ∧
        (∀ c ∈ statsWindow rows sid period now, resp.min_players ≤ c) ∧
        resp.max_players ∈ statsWindow rows sid period now ∧
        (∀ c ∈ statsWindow rows sid period now, c ≤ resp.max_players) ∧
        resp.avg_players =
          pyRound2 (((statsWindow rows sid period now).sum : ℚ) /
            ((statsWindow rows sid period now).length : ℚ)) ∧
        resp.total_snapshots = (statsWindow rows sid period now).length ∧
        resp.server_id = sid ∧ resp.server_name = server.name) ∧
    get_server_stats [⟨"s1", "One", "h", 1⟩]
        [⟨1, "s1", 500001, 0⟩, ⟨2, "s1", 500002, 2⟩, ⟨3, "s1", 500003, 4⟩,
          ⟨4, "s1", 500004, 6⟩, ⟨5, "s1", 500005, 8⟩]
        "s1" 7 1000000 =
      .ok ⟨"s1", "One", 7, 0, 8, 4, 5⟩ := by
  constructor
  · intro servers rows sid period now server hfind hne
    obtain ⟨mn, hmn, hmnmem, hmnle⟩ :=
      sqlMin_spec (statsWindow rows sid period now) hne
    obtain ⟨mx, hmx, hmxmem, hmxle⟩ :=
      sqlMax_spec (statsWindow rows sid period now) hne
    unfold get_server_stats
    rw [hfind]
    refine ⟨_, rfl, ?_, ?_, ?_, ?_, ?_, ?_, rfl, rfl⟩
    · show (sqlMin (statsWindow rows sid period now)).getD 0 ∈ _
      rw [hmn]
      exact hmnmem
    · intro c hc
      show (sqlMin (statsWindow rows sid period now)).getD 0 ≤ c
      rw [hmn]
      exact hmnle c hc
    · show (sqlMax (statsWindow rows sid period now)).getD 0 ∈ _
      rw [hmx]
      exact hmxmem
    · intro c hc
      show c ≤ (sqlMax (statsWindow rows sid period now)).getD 0
      rw [hmx]
      exact hmxle c hc
    · show pyRound2 ((sqlAvg (statsWindow rows sid period now)).getD 0) = _
      rw [sqlAvg_spec (statsWindow rows sid period now) hne]
    · show sqlCount (statsWindow rows sid period now) = _
      rw [sqlCount_eq]
  · have havg : pyRound2 ((sqlAvg [0, 2, 4, 6, 8]).getD 0) = 4 := by
      have h2 : (sqlAvg [0, 2, 4, 6, 8]).getD 0 = (4 : ℚ) := by
        show ((sqlSum [0, 2, 4, 6, 8] : ℚ) / (sqlCount [0, 2, 4, 6, 8] : ℚ))
            = 4
        norm_num [sqlSum_eq, sqlCount_eq]
      rw [h2]
      unfold pyRound2 roundHalfEven
      norm_num [Int.fract]
    calc
      get_server_stats [⟨"s1", "One", "h", 1⟩]
          [⟨1, "s1", 500001, 0⟩, ⟨2, "s1", 500002, 2⟩, ⟨3, "s1", 500003, 4⟩,
            ⟨4, "s1", 500004, 6⟩, ⟨5, "s1", 500005, 8⟩]
          "s1" 7 1000000
          = .ok ⟨"s1", "One", 7, 0, 8,
              pyRound2 ((sqlAvg [0, 2, 4, 6, 8]).getD 0), 5⟩ := rfl
      _ = .ok ⟨"s1", "One", 7, 0, 8, 4, 5⟩ := by rw [havg]

/-- Witness for C9 at a one-row window with count 5. -/
theorem get_server_stats_correct_witness :
    ∃ resp, get_server_stats [⟨"s2", "Two", "h", 1⟩]
        [⟨1, "s2", 999999, 5⟩] "s2" 7 1000000 = .ok resp ∧
      resp.min_players ∈ statsWindow [⟨1, "s2", 999999, 5⟩] "s2" 7 1000000 ∧
      (∀ c ∈ statsWindow [⟨1, "s2", 999999, 5⟩] "s2" 7 1000000,
        resp.min_players ≤ c) ∧
      resp.max_players ∈ statsWindow [⟨1, "s2", 999999, 5⟩] "s2" 7 1000000 ∧
      (∀ c ∈ statsWindow [⟨1, "s2", 999999, 5⟩] "s2" 7 1000000,
        c ≤ resp.max_players) ∧
      resp.avg_players =
        pyRound2 (((statsWindow [⟨1, "s2", 999999, 5⟩] "s2" 7 1000000).sum :
            ℚ) /
          ((statsWindow [⟨1, "s2", 999999, 5⟩] "s2" 7 1000000).length : ℚ)) ∧
      resp.total_snapshots =
        (statsWindow [⟨1, "s2", 999999, 5⟩] "s2" 7 1000000).length ∧
      resp.server_id = "s2" ∧
      resp.server_name = (⟨"s2", "Two", "h", 1⟩ : Server).name :=
  get_server_stats_correct.1 [⟨"s2", "Two", "h", 1⟩]
    [⟨1, "s2", 999999, 5⟩] "s2" 7 1000000 ⟨"s2", "Two", "h", 1⟩ rfl
    (by decide)
